import Mathlib

/-!
Verification of the multi-backend transformation dispatch layer of the
ai-image-variations repository.

The Python source is shallowly embedded: each backend adapter
(`transform_image` in `src/utils/*_handler.py`) becomes a total Lean
function over an explicit environment record that supplies the results of
every external interaction (HTTP requests, the Replicate SDK call, PIL
decoding, the local diffusion pipeline).  An external call that raises a
Python exception is modelled by `Except PyExc`; the adapter-level
`try/except` blocks become explicit matches that map a `PyExc` to the
failure message the corresponding `except` clause returns.  Pure fragments
of the source (prompt banding, request-payload construction, the polling
loop, the orchestrator batch loop) are translated directly.

Numbers: Python floats are embedded as `ℚ` (the strength values handled by
the UI are exact multiples of 1/20, and every comparison or subtraction the
source performs on them is exact); byte strings and decoded bitmaps are
embedded as `List Nat`.
-/

set_option autoImplicit false
set_option maxRecDepth 8000

namespace AIVar

/-- Encoded image bytes (the `image_bytes` arguments). -/
abbrev Bytes := List Nat

/-- A decoded bitmap (a PIL `Image` object in the source). -/
abbrev Img := List Nat

/-- A Python exception crossing an external-call boundary, tagged with the
exception class the adapters branch on, and carrying `str(e)`. -/
inductive PyExc where
  /-- `requests.exceptions.Timeout` -/
  | timeout (msg : String)
  /-- any other `requests.exceptions.RequestException` -/
  | requestExc (msg : String)
  /-- `RuntimeError` (raised by torch, e.g. CUDA out of memory) -/
  | runtimeError (msg : String)
  /-- any other exception class -/
  | generic (name msg : String)
deriving DecidableEq

/-- The message `str(e)` of an exception. -/
def PyExc.msg : PyExc → String
  | .timeout m => m
  | .requestExc m => m
  | .runtimeError m => m
  | .generic _ m => m

/-- The uniform result of every adapter: the Python pair
`(True, image)` or `(False, message)`. -/
inductive TransformOutcome where
  | success (image : Img)
  | failure (message : String)
deriving DecidableEq

/-- Whether the outcome is the `(True, image)` variant. -/
def TransformOutcome.isSuccess : TransformOutcome → Bool
  | .success _ => true
  | .failure _ => false

/-- The adapter contract of the spec: either a decoded image, or a failure
carrying a non-empty message. -/
def TransformOutcome.wellFormed : TransformOutcome → Bool
  | .success _ => true
  | .failure m => 0 < m.length

/-- Substring test on character lists (`needle` is a prefix of the list). -/
def listIsPre : List Char → List Char → Bool
  | [], _ => true
  | _, [] => false
  | a :: as, b :: bs => a == b && listIsPre as bs

/-- Substring test on character lists (`needle` occurs somewhere). -/
def listHasInfix (needle : List Char) : List Char → Bool
  | [] => needle.isEmpty
  | c :: cs => listIsPre needle (c :: cs) || listHasInfix needle cs

/-- The Python `needle in hay` test on strings. -/
def strContains (hay needle : String) : Bool := listHasInfix needle.data hay.data

/-- The Python `s.lower()` (kernel-computable variant of `String.toLower`). -/
def lowerStr (s : String) : String := String.mk (s.data.map Char.toLower)

/-- The Python `s[:n]` slice. -/
def strTrunc (s : String) (n : Nat) : String := s.take n

/-! ## DeepAI adapter (`src/utils/deepai_api_handler.py`) -/

/-- The final prompt of the DeepAI adapter (`transform_image`, lines 60-74):
an empty prompt is replaced by the default, and strength is folded into the
text via three bands. -/
def deepaiFinalPrompt (prompt : String) (strength : ℚ) : String :=
  let p := if prompt = "" then "enhance, improve quality, detailed" else prompt
  if strength < mkRat 1 2 then
    "slightly modify: " ++ p ++ ", keep original style"
  else if strength < mkRat 7 10 then
    "transform into: " ++ p
  else
    "completely transform into: " ++ p ++ ", creative interpretation"

/-- The multipart request the DeepAI adapter posts: the `text` form field
and the `image` file field. -/
structure DeepAIRequest where
  text : String
  imageBytes : Bytes
deriving DecidableEq

/-- The observed response of the DeepAI POST: HTTP status, `response.text`
(used for error reporting), and the result of
`response.json().get("output_url")` (parsing may itself raise). -/
structure DeepAIResp where
  status : Nat
  errText : String
  jsonOutputUrl : Except PyExc (Option String)

/-- The external world as seen by the DeepAI adapter. -/
structure DeepAIEnv where
  /-- `DEEPAI_API_KEY` from the environment (`None` when missing). -/
  apiKey : Option String
  /-- `requests.post` on the image-editor endpoint. -/
  post : DeepAIRequest → Except PyExc DeepAIResp
  /-- `requests.get(output_url)`: status and content bytes. -/
  download : String → Except PyExc (Nat × Bytes)
  /-- `Image.open(io.BytesIO(content))`. -/
  decode : Bytes → Except PyExc Img

/-- The `except` clauses of the DeepAI adapter (lines 151-163). -/
def deepaiHandle : PyExc → String
  | .timeout _ => "DeepAI timeout: Processing did not complete within 60 seconds."
  | .requestExc m => "DeepAI connection error: " ++ strTrunc m 150
  | .runtimeError m => "DeepAI API error: " ++ strTrunc m 150
  | .generic _ m => "DeepAI API error: " ++ strTrunc m 150

/-- The body of the DeepAI `try` block (lines 55-149). -/
def deepaiBody (env : DeepAIEnv) (imageBytes : Bytes) (prompt : String)
    (strength : ℚ) : Except PyExc TransformOutcome :=
  match env.post ⟨deepaiFinalPrompt prompt strength, imageBytes⟩ with
  | .error e => .error e
  | .ok resp =>
    if resp.status ≠ 200 then
      if resp.status = 401 then
        .ok (.failure "DeepAI API key is invalid. Check your key.")
      else if resp.status = 402 then
        .ok (.failure "No credit in your DeepAI account. Check your subscription.")
      else if resp.status = 429 then
        .ok (.failure "Rate limit exceeded. Wait a few seconds and try again.")
      else if resp.status = 500 then
        .ok (.failure "DeepAI server error. Please try again in a few minutes.")
      else
        .ok (.failure ("DeepAI API error (" ++ toString resp.status ++ "): "
          ++ strTrunc resp.errText 200))
    else
      match resp.jsonOutputUrl with
      | .error e => .error e
      | .ok none => .ok (.failure "Could not get image URL from DeepAI.")
      | .ok (some url) =>
        match env.download url with
        | .error e => .error e
        | .ok (st, content) =>
          if st ≠ 200 then .ok (.failure "Could not download image.")
          else
            match env.decode content with
            | .error e => .error e
            | .ok img => .ok (.success img)

/-- `transform_image` of `deepai_api_handler.py`; `negative_prompt` is
accepted but unused by DeepAI (documented no-op). -/
def deepai_transform_image (env : DeepAIEnv) (imageBytes : Bytes)
    (prompt : String) (strength : ℚ) (negative_prompt : String) : TransformOutcome :=
  match env.apiKey with
  | none => .failure "DeepAI API key not found. Add DEEPAI_API_KEY to .env file."
  | some _ =>
    match deepaiBody env imageBytes prompt strength with
    | .ok o => o
    | .error e => .failure (deepaiHandle e)

/-! ## Stability AI adapter, request construction
(`src/utils/stability_ai_handler.py`, lines 124-174) -/

/-- The form-data fields of the Stability AI image-to-image request. -/
structure StabilityRequestData where
  textPrompt0 : String
  textWeight0 : ℚ
  image_strength : ℚ
  cfg_scale : ℚ
  samples : Nat
  steps : Nat
  /-- the optional second weighted text entry for the negative prompt -/
  textPrompt1 : Option (String × ℚ)
deriving DecidableEq

/-- Construction of the Stability AI form data (`transform_image`,
lines 124-174): default positive prompt, inverted image strength
(`image_strength = 1.0 - strength`), fixed cfg/samples/steps, and a
weight `-1.0` entry when a negative prompt is present. -/
def stabilityRequestData (prompt negative_prompt : String) (strength : ℚ) :
    StabilityRequestData :=
  let pos := if prompt = "" then "high quality, detailed, improved" else prompt
  { textPrompt0 := pos
    textWeight0 := 1
    image_strength := 1 - strength
    cfg_scale := 12
    samples := 1
    steps := 50
    textPrompt1 := if negative_prompt = "" then none else some (negative_prompt, -1) }

/-! ## Replicate adapter, request construction
(`src/utils/replicate_api_handler.py`, lines 57-89) -/

/-- The `input_params` dictionary passed to `replicate.run`. -/
structure ReplicateInput where
  image : String
  prompt : String
  num_inference_steps : Nat
  image_guidance_scale : ℚ
  guidance_scale : ℚ
deriving DecidableEq

/-- Construction of the Replicate `input_params` (`transform_image`,
lines 68-74).  The `strength` argument is in scope in the source but does
not occur in the dictionary: `guidance_scale` is the literal `7.5`. -/
def replicateInputParams (imageDataUri : String) (prompt : String)
    (strength : ℚ) : ReplicateInput :=
  let _ := strength
  { image := imageDataUri
    prompt := if prompt = "" then "improve the image quality" else prompt
    num_inference_steps := 20
    image_guidance_scale := mkRat 3 2
    guidance_scale := mkRat 15 2 }

/-! ## Claims C5, C6, C7 -/

/-- Claim C5: the DeepAI final prompt is a pure function of strength and
prompt with exactly three bands; strength below 1/2 yields a prompt that
is the band text "slightly modify:" followed by a rest, strength in
[1/2, 7/10) yields "transform into:" followed by a rest, and strength at
least 7/10 yields "completely transform into:" followed by a rest. -/
theorem deepai_prompt_banding (prompt : String) (s : ℚ) :
    (s < mkRat 1 2 →
      ∃ rest, deepaiFinalPrompt prompt s = "slightly modify:" ++ rest) ∧
    (mkRat 1 2 ≤ s → s < mkRat 7 10 →
      ∃ rest, deepaiFinalPrompt prompt s = "transform into:" ++ rest) ∧
    (mkRat 7 10 ≤ s →
      ∃ rest, deepaiFinalPrompt prompt s = "completely transform into:" ++ rest) := by
  refine ⟨fun h1 => ?_, fun h2 h3 => ?_, fun h4 => ?_⟩
  · refine ⟨" " ++ ((if prompt = "" then "enhance, improve quality, detailed" else prompt)
      ++ ", keep original style"), ?_⟩
    rw [deepaiFinalPrompt, if_pos h1,
      show "slightly modify: " = "slightly modify:" ++ " " from rfl,
      String.append_assoc, String.append_assoc]
  · refine ⟨" " ++ (if prompt = "" then "enhance, improve quality, detailed" else prompt), ?_⟩
    rw [deepaiFinalPrompt, if_neg (not_lt.mpr h2), if_pos h3,
      show "transform into: " = "transform into:" ++ " " from rfl,
      String.append_assoc]
  · refine ⟨" " ++ ((if prompt = "" then "enhance, improve quality, detailed" else prompt)
      ++ ", creative interpretation"), ?_⟩
    rw [deepaiFinalPrompt, if_neg (not_lt.mpr (le_trans (by decide) h4)),
      if_neg (not_lt.mpr h4),
      show "completely transform into: " = "completely transform into:" ++ " " from rfl,
      String.append_assoc, String.append_assoc]

/-- Witness for C5: the three bands at strengths 2/5, 3/5 and 4/5. -/
theorem deepai_prompt_banding_witness :
    (∃ rest, deepaiFinalPrompt "oil painting" (mkRat 2 5) = "slightly modify:" ++ rest) ∧
    (∃ rest, deepaiFinalPrompt "oil painting" (mkRat 3 5) = "transform into:" ++ rest) ∧
    (∃ rest, deepaiFinalPrompt "oil painting" (mkRat 4 5) =
      "completely transform into:" ++ rest) :=
  ⟨(deepai_prompt_banding "oil painting" (mkRat 2 5)).1 (by decide),
   (deepai_prompt_banding "oil painting" (mkRat 3 5)).2.1 (by decide) (by decide),
   (deepai_prompt_banding "oil painting" (mkRat 4 5)).2.2 (by decide)⟩

/-- Claim C6: for every strength `s`, the `image_strength` field the
Stability AI adapter places in the outgoing form data is exactly `1 - s`. -/
theorem stability_strength_inversion (prompt negative_prompt : String) (s : ℚ) :
    (stabilityRequestData prompt negative_prompt s).image_strength = 1 - s := rfl

/-- Claim C7 (code bug evaluation): the Replicate payload does not depend
on strength at all.  At the concrete failing input (strengths 3/10 and
9/10, all other inputs equal) the two payloads coincide, and the
`guidance_scale` field is the hard-coded 15/2, not the strength. -/
theorem replicate_payload_ignores_strength :
    replicateInputParams "data:image/png;base64,AAAA" "oil painting" (mkRat 3 10) =
      replicateInputParams "data:image/png;base64,AAAA" "oil painting" (mkRat 9 10) ∧
    (replicateInputParams "data:image/png;base64,AAAA" "oil painting"
      (mkRat 3 10)).guidance_scale = mkRat 15 2 ∧
    (mkRat 3 10 : ℚ) ≠ mkRat 9 10 := by
  refine ⟨rfl, rfl, by decide⟩

/-! ## Variation orchestrator (`src/app.py`, `render_transform`, lines 251-360) -/

/-- The metadata stored in `st.session_state.last_metadata` (lines 346-354). -/
structure Metadata where
  platform : String
  prompt : String
  negative_prompt : String
  strength : ℚ
  duration : ℚ
  timestamp : String
  num_variations : Nat
deriving DecidableEq

/-- The externally visible session state touched by `render_transform`. -/
structure SessionState where
  transformed_images : List Img
  transformation_done : Bool
  last_metadata : Option Metadata
deriving DecidableEq

/-- The `for i in range(num_variations)` loop of `render_transform`
(lines 311-334): `f i` is the outcome of the adapter call for variation
`i`; a success is appended to `generated_images`, the first failure
returns immediately.  The second component counts the adapter invocations
actually issued. -/
def batchLoopAux (f : Nat → TransformOutcome) :
    Nat → Nat → List Img → (Except (Nat × String) (List Img)) × Nat
  | _, 0, acc => (.ok acc, 0)
  | i, rem + 1, acc =>
    match f i with
    | .success img =>
      let r := batchLoopAux f (i + 1) rem (acc ++ [img])
      (r.1, r.2 + 1)
    | .failure msg => (.error (i, msg), 1)

/-- The whole batch loop, starting at variation 0 with an empty
`generated_images`. -/
def generateBatch (f : Nat → TransformOutcome) (count : Nat) :
    (Except (Nat × String) (List Img)) × Nat :=
  batchLoopAux f 0 count []

/-- The state-updating part of `render_transform`: on the first failing
variation it returns with the session state untouched, surfacing only the
error text; on full success it writes `transformed_images`,
`transformation_done` and `last_metadata`. -/
def render_transform (st : SessionState) (f : Nat → TransformOutcome)
    (num_variations : Nat) (platform_name used_prompt used_negative_prompt : String)
    (strength duration : ℚ) (timestamp : String) : SessionState × Option String :=
  match (generateBatch f num_variations).1 with
  | .error (i, msg) =>
    (st, some ("❌ Variation " ++ toString (i + 1) ++ " failed: " ++ msg))
  | .ok imgs =>
    ({ transformed_images := imgs
       transformation_done := true
       last_metadata := some
         { platform := platform_name
           prompt := used_prompt
           negative_prompt := used_negative_prompt
           strength := strength
           duration := duration
           timestamp := timestamp
           num_variations := num_variations } },
     none)

/-- The display condition of `render_results` (line 366): results are shown
when `transformation_done` is set and `transformed_images` is non-empty. -/
def displayedImages (st : SessionState) : List Img :=
  if st.transformation_done && !st.transformed_images.isEmpty then
    st.transformed_images
  else []

/-- If variation `base + k` fails and all variations before it succeed, the
batch loop stops with that failure after exactly `k + 1` calls. -/
lemma batchLoopAux_fail (f : Nat → TransformOutcome) (msg : String) :
    ∀ (k base rem : Nat) (acc : List Img), k < rem →
      f (base + k) = .failure msg →
      (∀ j, j < k → (f (base + j)).isSuccess = true) →
      batchLoopAux f base rem acc = (.error (base + k, msg), k + 1) := by
  intro k
  induction k with
  | zero =>
    intro base rem acc hk hfail _
    match rem, hk with
    | rem + 1, _ =>
      simpa [batchLoopAux] using by rw [show base + 0 = base from rfl] at hfail; rw [hfail]
  | succ k ih =>
    intro base rem acc hk hfail hpre
    match rem, hk with
    | rem + 1, hk =>
      have h0 := hpre 0 (Nat.succ_pos k)
      rw [Nat.add_zero] at h0
      match hf : f base with
      | .failure m => rw [hf] at h0; simp [TransformOutcome.isSuccess] at h0
      | .success img =>
        have heq : batchLoopAux f (base + 1) rem (acc ++ [img]) =
            (.error ((base + 1) + k, msg), k + 1) := by
          refine ih (base + 1) rem (acc ++ [img]) (Nat.lt_of_succ_lt_succ hk) ?_ ?_
          · rw [show base + 1 + k = base + (k + 1) by omega]; exact hfail
          · intro j hj
            rw [show base + 1 + j = base + (j + 1) by omega]
            exact hpre (j + 1) (Nat.succ_lt_succ hj)
        rw [show base + 1 + k = base + (k + 1) by omega] at heq
        simp [batchLoopAux, hf, heq]

/-- If every variation in the window succeeds, the batch loop returns all
results in invocation order, one call per variation. -/
lemma batchLoopAux_success (f : Nat → TransformOutcome) (g : Nat → Img) :
    ∀ (rem base : Nat) (acc : List Img),
      (∀ j, j < rem → f (base + j) = .success (g (base + j))) →
      batchLoopAux f base rem acc =
        (.ok (acc ++ (List.range rem).map (fun j => g (base + j))), rem) := by
  intro rem
  induction rem with
  | zero => intro base acc _; simp [batchLoopAux]
  | succ rem ih =>
    intro base acc hsucc
    have h0 := hsucc 0 (Nat.succ_pos rem)
    rw [Nat.add_zero] at h0
    have heq := ih (base + 1) (acc ++ [g base]) (fun j hj => by
      rw [show base + 1 + j = base + (j + 1) by omega]
      exact hsucc (j + 1) (Nat.succ_lt_succ hj))
    have hlist : (List.range (rem + 1)).map (fun j => g (base + j)) =
        g base :: (List.range rem).map (fun j => g (base + 1 + j)) := by
      rw [List.range_succ_eq_map, List.map_cons, List.map_map, Nat.add_zero]
      refine congrArg _ (List.map_congr_left ?_)
      intro j _
      simp only [Function.comp_apply, Nat.succ_eq_add_one]
      congr 1
      omega
    simp only [batchLoopAux, h0, heq]
    rw [hlist]
    simp

/-- Claim C2: if the adapter call for variation `i` fails (all earlier
variations having succeeded), the orchestrator issues exactly `i + 1`
adapter calls (none after `i`), the loop result is that failure, and
`render_transform` returns with the session state untouched, surfacing
only the failure text: no batch, and the accumulated results of
variations before `i` are discarded. -/
theorem orchestrator_fail_fast (st : SessionState) (f : Nat → TransformOutcome)
    (count i : Nat) (msg : String)
    (platform_name used_prompt used_negative_prompt : String)
    (strength duration : ℚ) (timestamp : String)
    (hi : i < count) (hfail : f i = .failure msg)
    (hpre : ∀ j, j < i → (f j).isSuccess = true) :
    (generateBatch f count).2 = i + 1 ∧
    (generateBatch f count).1 = .error (i, msg) ∧
    render_transform st f count platform_name used_prompt used_negative_prompt
        strength duration timestamp =
      (st, some ("❌ Variation " ++ toString (i + 1) ++ " failed: " ++ msg)) := by
  have h := batchLoopAux_fail f msg i 0 count [] hi
    (by rw [Nat.zero_add]; exact hfail)
    (fun j hj => by rw [Nat.zero_add]; exact hpre j hj)
  rw [Nat.zero_add] at h
  refine ⟨by rw [generateBatch, h], by rw [generateBatch, h], ?_⟩
  rw [render_transform, generateBatch, h]

/-- Witness for C2: a batch of four where variation 2 fails after two
successes issues exactly three calls and leaves the state unchanged. -/
theorem orchestrator_fail_fast_witness :
    (generateBatch
        (fun j => if j = 2 then .failure "boom" else .success [j]) 4).2 = 3 ∧
    (generateBatch
        (fun j => if j = 2 then .failure "boom" else .success [j]) 4).1 =
      .error (2, "boom") ∧
    render_transform ⟨[[7]], true, none⟩
        (fun j => if j = 2 then .failure "boom" else .success [j]) 4
        "DeepAI" "p" "n" (mkRat 3 5) 0 "t" =
      (⟨[[7]], true, none⟩, some ("❌ Variation " ++ toString 3 ++ " failed: " ++ "boom")) :=
  orchestrator_fail_fast ⟨[[7]], true, none⟩
    (fun j => if j = 2 then .failure "boom" else .success [j]) 4 2 "boom"
    "DeepAI" "p" "n" (mkRat 3 5) 0 "t" (by decide) (by decide)
    (fun j hj => by interval_cases j <;> decide)

/-- Claim C3: when every one of the `count` adapter calls succeeds, the
stored batch has exactly `count` results and the element at position `i`
is the image of the `i`-th invocation, in invocation order. -/
theorem orchestrator_ordering (st : SessionState) (f : Nat → TransformOutcome)
    (g : Nat → Img) (count : Nat)
    (platform_name used_prompt used_negative_prompt : String)
    (strength duration : ℚ) (timestamp : String)
    (hsucc : ∀ j, j < count → f j = .success (g j)) :
    (render_transform st f count platform_name used_prompt used_negative_prompt
        strength duration timestamp).1.transformed_images = (List.range count).map g ∧
    (render_transform st f count platform_name used_prompt used_negative_prompt
        strength duration timestamp).1.transformed_images.length = count ∧
    (∀ i, i < count →
      (render_transform st f count platform_name used_prompt used_negative_prompt
        strength duration timestamp).1.transformed_images[i]? = some (g i)) := by
  have h := batchLoopAux_success f g count 0 []
    (fun j hj => by rw [Nat.zero_add]; exact hsucc j hj)
  simp only [Nat.zero_add, List.nil_append] at h
  have hres : (render_transform st f count platform_name used_prompt
      used_negative_prompt strength duration timestamp).1.transformed_images =
      (List.range count).map g := by
    rw [render_transform, generateBatch, h]
  refine ⟨hres, ?_, ?_⟩
  · rw [hres, List.length_map, List.length_range]
  · intro i hi
    rw [hres, List.getElem?_map, List.getElem?_range hi]
    rfl

/-- Witness for C3: three successful variations are stored in order. -/
theorem orchestrator_ordering_witness :
    (render_transform ⟨[], false, none⟩ (fun j => .success [j, j]) 3
        "Leonardo.ai" "p" "n" (mkRat 3 5) 0 "t").1.transformed_images =
      (List.range 3).map (fun j => [j, j]) ∧
    (render_transform ⟨[], false, none⟩ (fun j => .success [j, j]) 3
        "Leonardo.ai" "p" "n" (mkRat 3 5) 0 "t").1.transformed_images.length = 3 ∧
    (∀ i, i < 3 →
      (render_transform ⟨[], false, none⟩ (fun j => .success [j, j]) 3
        "Leonardo.ai" "p" "n" (mkRat 3 5) 0 "t").1.transformed_images[i]? =
        some [i, i]) :=
  orchestrator_ordering ⟨[], false, none⟩ (fun j => .success [j, j])
    (fun j => [j, j]) 3 "Leonardo.ai" "p" "n" (mkRat 3 5) 0 "t"
    (fun _ _ => rfl)

/-- Claim C10: batch failure is atomic for the session state: whenever the
batch loop fails, `render_transform` returns the incoming state unchanged,
so the previous batch (results, done flag, metadata) is still stored and
still displayed. -/
theorem batch_failure_atomic (st : SessionState) (f : Nat → TransformOutcome)
    (count i : Nat) (msg : String)
    (platform_name used_prompt used_negative_prompt : String)
    (strength duration : ℚ) (timestamp : String)
    (hfail : (generateBatch f count).1 = .error (i, msg)) :
    (render_transform st f count platform_name used_prompt used_negative_prompt
        strength duration timestamp).1 = st ∧
    displayedImages (render_transform st f count platform_name used_prompt
        used_negative_prompt strength duration timestamp).1 = displayedImages st := by
  have hr : render_transform st f count platform_name used_prompt
      used_negative_prompt strength duration timestamp =
      (st, some ("❌ Variation " ++ toString (i + 1) ++ " failed: " ++ msg)) := by
    rw [render_transform, hfail]
  rw [hr]
  exact ⟨rfl, rfl⟩

/-- Witness for C10: a failing batch leaves a previously successful batch
(one stored image, done flag set, metadata present) untouched. -/
theorem batch_failure_atomic_witness :
    (render_transform ⟨[[9]], true, some ⟨"DeepAI", "p", "n", mkRat 3 5, 2, "t", 1⟩⟩
        (fun _ => .failure "boom") 2 "DeepAI" "q" "m" (mkRat 2 5) 0 "u").1 =
      ⟨[[9]], true, some ⟨"DeepAI", "p", "n", mkRat 3 5, 2, "t", 1⟩⟩ ∧
    displayedImages (render_transform
        ⟨[[9]], true, some ⟨"DeepAI", "p", "n", mkRat 3 5, 2, "t", 1⟩⟩
        (fun _ => .failure "boom") 2 "DeepAI" "q" "m" (mkRat 2 5) 0 "u").1 =
      displayedImages ⟨[[9]], true, some ⟨"DeepAI", "p", "n", mkRat 3 5, 2, "t", 1⟩⟩ :=
  batch_failure_atomic ⟨[[9]], true, some ⟨"DeepAI", "p", "n", mkRat 3 5, 2, "t", 1⟩⟩
    (fun _ => .failure "boom") 2 0 "boom" "DeepAI" "q" "m" (mkRat 2 5) 0 "u" rfl

/-! ## Leonardo.ai adapter (`src/utils/leonardo_api_handler.py`) -/

/-- One status read of the polling loop (lines 159-166): the
`requests.get` may raise, return a non-200 response (the loop just
continues), or yield the `status` field of the generation. -/
inductive LeoRead where
  | raised (e : PyExc)
  | httpErr
  | st (status : String)
deriving DecidableEq

deriving instance DecidableEq for Except

/-- A status read that keeps the loop polling: no exception, and a status
that is neither COMPLETE nor FAILED (this includes non-200 responses). -/
def LeoRead.nonterminal : LeoRead → Bool
  | .raised _ => false
  | .httpErr => true
  | .st s => s != "COMPLETE" && s != "FAILED"

/-- Observable result of the polling loop: the outcome (or escaped
exception), the number of status reads issued, and the seconds slept. -/
structure PollOut where
  res : Except PyExc TransformOutcome
  reads : Nat
  slept : Nat
deriving DecidableEq

/-- The `while attempt < max_attempts` polling loop (lines 146-199):
each iteration sleeps 2 seconds, issues one status read, returns on
COMPLETE (running the fallible image fetch `onComplete`) or FAILED, and
keeps polling otherwise; an exhausted budget is the timeout failure. -/
def leoPollAux (read : Nat → LeoRead) (onComplete : Except PyExc TransformOutcome) :
    Nat → Nat → PollOut
  | _, 0 => ⟨.ok (.failure "Timeout: Generation did not complete within 60 seconds."), 0, 0⟩
  | i, rem + 1 =>
    match read i with
    | .raised e => ⟨.error e, 1, 2⟩
    | .httpErr =>
      let r := leoPollAux read onComplete (i + 1) rem
      ⟨r.res, r.reads + 1, r.slept + 2⟩
    | .st s =>
      if s = "COMPLETE" then ⟨onComplete, 1, 2⟩
      else if s = "FAILED" then ⟨.ok (.failure "Generation failed."), 1, 2⟩
      else
        let r := leoPollAux read onComplete (i + 1) rem
        ⟨r.res, r.reads + 1, r.slept + 2⟩

/-- The polling loop with the source's budget: `max_attempts = 60`. -/
def leoPoll (read : Nat → LeoRead) (onComplete : Except PyExc TransformOutcome) : PollOut :=
  leoPollAux read onComplete 0 60

/-- The loop issues at most as many status reads as its remaining budget. -/
lemma leoPollAux_reads_le (read : Nat → LeoRead) (oc : Except PyExc TransformOutcome) :
    ∀ (rem i : Nat), (leoPollAux read oc i rem).reads ≤ rem := by
  intro rem
  induction rem with
  | zero => intro i; simp [leoPollAux]
  | succ rem ih =>
    intro i
    unfold leoPollAux
    match read i with
    | .raised e => simp
    | .httpErr => simpa using Nat.succ_le_succ (ih (i + 1))
    | .st s =>
      by_cases h1 : s = "COMPLETE"
      · simp [h1]
      · by_cases h2 : s = "FAILED"
        · simp [h1, h2]
        · simpa [h1, h2] using Nat.succ_le_succ (ih (i + 1))

/-- Two seconds are slept before every status read. -/
lemma leoPollAux_slept (read : Nat → LeoRead) (oc : Except PyExc TransformOutcome) :
    ∀ (rem i : Nat), (leoPollAux read oc i rem).slept = 2 * (leoPollAux read oc i rem).reads := by
  intro rem
  induction rem with
  | zero => intro i; simp [leoPollAux]
  | succ rem ih =>
    intro i
    unfold leoPollAux
    match read i with
    | .raised e => simp
    | .httpErr => simp [ih (i + 1)]; ring
    | .st s =>
      by_cases h1 : s = "COMPLETE"
      · simp [h1]
      · by_cases h2 : s = "FAILED"
        · simp [h1, h2]
        · simp [h1, h2, ih (i + 1)]; ring

/-- Observing FAILED at relative position `k` (after `k` non-terminal
reads) stops the loop at once with the failure outcome, after `k + 1`
reads. -/
lemma leoPollAux_failed (read : Nat → LeoRead) (oc : Except PyExc TransformOutcome) :
    ∀ (k base rem : Nat), k < rem → read (base + k) = .st "FAILED" →
      (∀ j, j < k → (read (base + j)).nonterminal = true) →
      leoPollAux read oc base rem =
        ⟨.ok (.failure "Generation failed."), k + 1, 2 * (k + 1)⟩ := by
  intro k
  induction k with
  | zero =>
    intro base rem hk hf _
    match rem, hk with
    | rem + 1, _ =>
      rw [Nat.add_zero] at hf
      simp [leoPollAux, hf]
  | succ k ih =>
    intro base rem hk hf hpre
    match rem, hk with
    | rem + 1, hk =>
      have h0 := hpre 0 (Nat.succ_pos k)
      rw [Nat.add_zero] at h0
      have hrec : leoPollAux read oc (base + 1) rem =
          ⟨.ok (.failure "Generation failed."), k + 1, 2 * (k + 1)⟩ := by
        refine ih (base + 1) rem (Nat.lt_of_succ_lt_succ hk) ?_ ?_
        · rw [show base + 1 + k = base + (k + 1) by omega]; exact hf
        · intro j hj
          rw [show base + 1 + j = base + (j + 1) by omega]
          exact hpre (j + 1) (Nat.succ_lt_succ hj)
      match hr : read base with
      | .raised e => rw [hr] at h0; simp [LeoRead.nonterminal] at h0
      | .httpErr => simp [leoPollAux, hr, hrec]; ring
      | .st s =>
        rw [hr] at h0
        simp only [LeoRead.nonterminal, Bool.and_eq_true, bne_iff_ne, ne_eq] at h0
        simp [leoPollAux, hr, h0.1, h0.2, hrec]
        ring

/-- If no terminal status is observed during the whole budget, the loop
issues exactly `rem` reads and ends in the timeout failure. -/
lemma leoPollAux_timeout (read : Nat → LeoRead) (oc : Except PyExc TransformOutcome) :
    ∀ (rem base : Nat), (∀ j, j < rem → (read (base + j)).nonterminal = true) →
      leoPollAux read oc base rem =
        ⟨.ok (.failure "Timeout: Generation did not complete within 60 seconds."),
          rem, 2 * rem⟩ := by
  intro rem
  induction rem with
  | zero => intro base _; simp [leoPollAux]
  | succ rem ih =>
    intro base hpre
    have h0 := hpre 0 (Nat.succ_pos rem)
    rw [Nat.add_zero] at h0
    have hrec := ih (base + 1) (fun j hj => by
      rw [show base + 1 + j = base + (j + 1) by omega]
      exact hpre (j + 1) (Nat.succ_lt_succ hj))
    match hr : read base with
    | .raised e => rw [hr] at h0; simp [LeoRead.nonterminal] at h0
    | .httpErr => simp [leoPollAux, hr, hrec]; ring
    | .st s =>
      rw [hr] at h0
      simp only [LeoRead.nonterminal, Bool.and_eq_true, bne_iff_ne, ne_eq] at h0
      simp [leoPollAux, hr, h0.1, h0.2, hrec]
      ring

/-- Claim C4: the Leonardo polling loop issues at most 60 status reads
with a 2-second sleep before each (`slept = 2 * reads` for any read
behaviour); observing FAILED at attempt `i` (earlier reads non-terminal)
terminates immediately with the FAILED failure after `i + 1` reads; and a
full budget of non-terminal reads terminates with the timeout failure —
whose message differs from the FAILED one — after exactly 60 reads. -/
theorem leonardo_poll_budget (readAny readF readT : Nat → LeoRead)
    (ocAny ocF ocT : Except PyExc TransformOutcome) (i : Nat) (hi : i < 60)
    (hf : readF i = .st "FAILED")
    (hpre : ∀ j, j < i → (readF j).nonterminal = true)
    (hto : ∀ j, j < 60 → (readT j).nonterminal = true) :
    (leoPoll readAny ocAny).reads ≤ 60 ∧
    (leoPoll readAny ocAny).slept = 2 * (leoPoll readAny ocAny).reads ∧
    leoPoll readF ocF = ⟨.ok (.failure "Generation failed."), i + 1, 2 * (i + 1)⟩ ∧
    leoPoll readT ocT =
      ⟨.ok (.failure "Timeout: Generation did not complete within 60 seconds."), 60, 120⟩ ∧
    "Timeout: Generation did not complete within 60 seconds." ≠ "Generation failed." := by
  refine ⟨leoPollAux_reads_le readAny ocAny 60 0, leoPollAux_slept readAny ocAny 60 0,
    ?_, ?_, by decide⟩
  · have h := leoPollAux_failed readF ocF i 0 60 hi
      (by rw [Nat.zero_add]; exact hf)
      (fun j hj => by rw [Nat.zero_add]; exact hpre j hj)
    exact h
  · have h := leoPollAux_timeout readT ocT 60 0
      (fun j hj => by rw [Nat.zero_add]; exact hto j hj)
    exact h

/-- Witness for C4: FAILED observed at attempt 5 after five PENDING
reads, and a run of 60 PENDING reads. -/
theorem leonardo_poll_budget_witness :
    (leoPoll (fun _ => LeoRead.st "PENDING") (.ok (.success [1]))).reads ≤ 60 ∧
    (leoPoll (fun _ => LeoRead.st "PENDING") (.ok (.success [1]))).slept =
      2 * (leoPoll (fun _ => LeoRead.st "PENDING") (.ok (.success [1]))).reads ∧
    leoPoll (fun j => if j = 5 then LeoRead.st "FAILED" else LeoRead.st "PENDING")
        (.ok (.success [1])) =
      ⟨.ok (.failure "Generation failed."), 6, 12⟩ ∧
    leoPoll (fun _ => LeoRead.st "PENDING") (.ok (.success [1])) =
      ⟨.ok (.failure "Timeout: Generation did not complete within 60 seconds."), 60, 120⟩ ∧
    "Timeout: Generation did not complete within 60 seconds." ≠ "Generation failed." :=
  leonardo_poll_budget (fun _ => LeoRead.st "PENDING")
    (fun j => if j = 5 then LeoRead.st "FAILED" else LeoRead.st "PENDING")
    (fun _ => LeoRead.st "PENDING")
    (.ok (.success [1])) (.ok (.success [1])) (.ok (.success [1])) 5
    (by decide) (by decide)
    (fun j hj => by interval_cases j <;> decide)
    (fun _ _ => rfl)

/-- Helper shared by the adapters with a whole-body `try` block: the `ok`
value is the adapter's own return, an escaped exception is mapped to the
failure message of the matching `except` clause. -/
def runExcept (handle : PyExc → String) (b : Except PyExc TransformOutcome) :
    TransformOutcome :=
  match b with
  | .ok o => o
  | .error e => .failure (handle e)

/-- The observed response of the Leonardo init-image upload (lines 78-90). -/
structure LeoUpload where
  status : Nat
  errText : String
  initImageId : Option String

/-- The observed response of the generation submission (lines 124-140). -/
structure LeoGen where
  status : Nat
  errText : String
  generationId : Option String

/-- The generation payload (lines 106-117). -/
structure LeoGenPayload where
  modelId : String
  prompt : String
  negative_prompt : String
  init_strength : ℚ
  init_image_id : String
  width : Nat
  height : Nat
  num_images : Nat
  guidance_scale : ℚ
  num_inference_steps : Nat
deriving DecidableEq

/-- Construction of the generation payload: default prompt and negative
prompt substitution, native `init_strength`, fixed model and sampler
settings. -/
def leoGenPayload (prompt negative_prompt : String) (strength : ℚ)
    (initImageId : String) : LeoGenPayload :=
  { modelId := "6b645e3a-d64f-4341-a6d8-7a3690fbf042"
    prompt := if prompt = "" then "high quality, detailed, professional, improved" else prompt
    negative_prompt := if negative_prompt = "" then "low quality, blurry, distorted"
      else negative_prompt
    init_strength := strength
    init_image_id := initImageId
    width := 1024
    height := 1024
    num_images := 1
    guidance_scale := 7
    num_inference_steps := 30 }

/-- The external world as seen by the Leonardo adapter. -/
structure LeoEnv where
  /-- `LEONARDO_API_KEY` from the environment. -/
  apiKey : Option String
  /-- the init-image upload POST, given the base64 payload bytes -/
  upload : Bytes → Except PyExc LeoUpload
  /-- the generation POST, given the payload -/
  gen : LeoGenPayload → Except PyExc LeoGen
  /-- the polling status reads -/
  read : Nat → LeoRead
  /-- `generations_by_pk.generated_images` when COMPLETE: each entry's
  optional `url` field -/
  completeImages : List (Option String)
  /-- `requests.get(image_url)`: status and content -/
  download : String → Except PyExc (Nat × Bytes)
  /-- `Image.open(io.BytesIO(content))` -/
  decode : Bytes → Except PyExc Img

/-- The COMPLETE branch of the polling loop (lines 170-194): first
generated image's URL, download, decode. -/
def leoOnComplete (env : LeoEnv) : Except PyExc TransformOutcome :=
  match env.completeImages with
  | [] => .ok (.failure "Image could not be generated.")
  | none :: _ => .ok (.failure "Could not get image URL.")
  | some url :: _ =>
    match env.download url with
    | .error e => .error e
    | .ok (st, content) =>
      if st ≠ 200 then .ok (.failure "Could not download image.")
      else
        match env.decode content with
        | .error e => .error e
        | .ok img => .ok (.success img)

/-- The `except` clauses of the Leonardo adapter (lines 201-210);
`requests.exceptions.Timeout` is a `RequestException` and lands in the
connection-error clause. -/
def leoHandle : PyExc → String
  | .timeout m => "Leonardo.ai connection error: " ++ strTrunc m 150
  | .requestExc m => "Leonardo.ai connection error: " ++ strTrunc m 150
  | .runtimeError m => "Leonardo.ai API error: " ++ strTrunc m 150
  | .generic _ m => "Leonardo.ai API error: " ++ strTrunc m 150

/-- The body of the Leonardo `try` block (lines 58-199). -/
def leoBody (env : LeoEnv) (imageBytes : Bytes) (prompt : String)
    (strength : ℚ) (negative_prompt : String) : Except PyExc TransformOutcome :=
  match env.upload imageBytes with
  | .error e => .error e
  | .ok up =>
    if up.status ≠ 200 then .ok (.failure ("Image upload error: " ++ up.errText))
    else
      match up.initImageId with
      | none => .ok (.failure "Could not get init image ID.")
      | some imgId =>
        match env.gen (leoGenPayload prompt negative_prompt strength imgId) with
        | .error e => .error e
        | .ok g =>
          if g.status ≠ 200 then .ok (.failure ("Generation start error: " ++ g.errText))
          else
            match g.generationId with
            | none => .ok (.failure "Could not get generation ID.")
            | some _ => (leoPoll env.read (leoOnComplete env)).res

/-- `transform_image` of `leonardo_api_handler.py`. -/
def leonardo_transform_image (env : LeoEnv) (imageBytes : Bytes) (prompt : String)
    (strength : ℚ) (negative_prompt : String) : TransformOutcome :=
  match env.apiKey with
  | none => .failure "Leonardo.ai API key not found. Add LEONARDO_API_KEY to .env file."
  | some _ => runExcept leoHandle (leoBody env imageBytes prompt strength negative_prompt)

/-! ## Local GPU adapter (`src/utils/local_inference_handler.py`) -/

/-- The external world as seen by the local adapter. -/
structure LocalEnv where
  /-- `torch.cuda.is_available()` -/
  cudaAvailable : Bool
  /-- `load_pipeline()`; a load failure is re-raised (line 105) -/
  loadPipeline : Except PyExc Unit
  /-- `Image.open(io.BytesIO(image_bytes)).convert("RGB")` (the in-memory
  downscale of oversized inputs is a pure PIL operation folded into the
  pipeline oracle) -/
  decodeInit : Bytes → Except PyExc Img
  /-- the diffusion pipeline call, given prompt, strength and the optional
  negative prompt (`negative_prompt if negative_prompt else None`) -/
  inference : String → ℚ → Option String → Except PyExc Img

/-- The `except` clauses of the local adapter (lines 188-201): an
out-of-memory `RuntimeError` has its own recoverable message. -/
def localHandle : PyExc → String
  | .runtimeError m =>
    if strContains (lowerStr m) "out of memory" then
      "Insufficient GPU memory. Try a smaller image or lower the strength value."
    else "GPU error: " ++ strTrunc m 150
  | .timeout m => "Local inference error: " ++ strTrunc m 150
  | .requestExc m => "Local inference error: " ++ strTrunc m 150
  | .generic _ m => "Local inference error: " ++ strTrunc m 150

/-- The body of the local `try` block (lines 131-180): load pipeline,
decode input, default the prompt, run inference. -/
def localBody (env : LocalEnv) (imageBytes : Bytes) (prompt : String)
    (strength : ℚ) (negative_prompt : String) : Except PyExc Img :=
  match env.loadPipeline with
  | .error e => .error e
  | .ok _ =>
    match env.decodeInit imageBytes with
    | .error e => .error e
    | .ok _ =>
      let p := if prompt = "" then "high quality, detailed, improved, professional" else prompt
      env.inference p strength (if negative_prompt = "" then none else some negative_prompt)

/-- `transform_image` of `local_inference_handler.py`.  The second
component counts the `torch.cuda.empty_cache()` calls performed during the
call: in the source (lines 182-201) the cache is cleared just before the
success return when CUDA is available, and on no other exit path. -/
def local_transform_image (env : LocalEnv) (imageBytes : Bytes) (prompt : String)
    (strength : ℚ) (negative_prompt : String) : TransformOutcome × Nat :=
  match localBody env imageBytes prompt strength negative_prompt with
  | .ok img => (.success img, if env.cudaAvailable then 1 else 0)
  | .error e => (.failure (localHandle e), 0)

/-- A concrete environment whose inference call raises the CUDA
out-of-memory `RuntimeError`. -/
def localOomEnv : LocalEnv :=
  { cudaAvailable := true
    loadPipeline := .ok ()
    decodeInit := fun _ => .ok [0]
    inference := fun _ _ _ =>
      .error (.runtimeError "CUDA out of memory. Tried to allocate 512 MiB") }

/-- Counterexample to claim C8 as stated: on the out-of-memory exit path
the adapter returns the recoverable OOM failure but the device cache is
released zero times, not exactly once. -/
theorem local_cache_release_counterexample :
    local_transform_image localOomEnv [1] "oil painting" (mkRat 3 5) "" =
      (.failure "Insufficient GPU memory. Try a smaller image or lower the strength value.", 0) ∧
    (local_transform_image localOomEnv [1] "oil painting" (mkRat 3 5) "").2 ≠ 1 := by
  exact ⟨rfl, by decide⟩

/-- Claim C8 (amended): the device memory cache is released exactly once
on the success path when CUDA is available, and zero times on every other
exit path — in particular on the generic failure and out-of-memory
failure paths it is not released. -/
theorem local_cache_release (env : LocalEnv) (imageBytes : Bytes) (prompt : String)
    (strength : ℚ) (negative_prompt : String) :
    (local_transform_image env imageBytes prompt strength negative_prompt).2 =
      if (local_transform_image env imageBytes prompt strength negative_prompt).1.isSuccess
          && env.cudaAvailable then 1 else 0 := by
  unfold local_transform_image
  cases hb : localBody env imageBytes prompt strength negative_prompt with
  | ok img => cases env.cudaAvailable <;> simp [TransformOutcome.isSuccess]
  | error e => simp [TransformOutcome.isSuccess]

/-! ## Replicate adapter (`src/utils/replicate_api_handler.py`) -/

/-- A single-quote character, for reproducing Python `repr`-style text. -/
def sq : String := String.mk [Char.ofNat 39]

/-- An element of a list-shaped Replicate output: the source only
distinguishes string elements (URLs, downloaded) from everything else
(used directly as the image). -/
inductive RepElem where
  | url (u : String)
  | image (i : Img)
deriving DecidableEq

/-- The polymorphic output of `replicate.run` (lines 96-116): a URL
string, a direct image, a list, or some other shape (with its
`type(output)` text). -/
inductive RepOut where
  | url (u : String)
  | image (i : Img)
  | list (xs : List RepElem)
  | other (tyName : String)
deriving DecidableEq

/-- The external world as seen by the Replicate adapter. -/
structure RepEnv where
  /-- `REPLICATE_API_TOKEN` from the environment -/
  token : Option String
  /-- `base64.b64encode(image_bytes).decode(utf-8)` -/
  b64e : Bytes → String
  /-- `replicate.run(model_version, input=input_params)` -/
  run : ReplicateInput → Except PyExc RepOut
  /-- `requests.get(url).content` (the source checks no status here) -/
  download : String → Except PyExc Bytes
  /-- `Image.open(io.BytesIO(content))` -/
  decode : Bytes → Except PyExc Img

/-- The output normalization of the Replicate adapter (lines 96-116):
string → download and decode; image → use directly; non-empty list →
first element, recursively by its shape; anything else → the
unexpected-format failure. -/
def replicateNormalize (env : RepEnv) (out : RepOut) : Except PyExc TransformOutcome :=
  match out with
  | .url u =>
    match env.download u with
    | .error e => .error e
    | .ok b =>
      match env.decode b with
      | .error e => .error e
      | .ok i => .ok (.success i)
  | .image i => .ok (.success i)
  | .list (RepElem.url u :: _) =>
    match env.download u with
    | .error e => .error e
    | .ok b =>
      match env.decode b with
      | .error e => .error e
      | .ok i => .ok (.success i)
  | .list (RepElem.image i :: _) => .ok (.success i)
  | .list [] =>
    .ok (.failure ("Unexpected output format: <class " ++ sq ++ "list" ++ sq ++ ">"))
  | .other tyName => .ok (.failure ("Unexpected output format: " ++ tyName))

/-- The `except Exception` clause of the Replicate adapter (lines
123-138): the message text `str(e)` is classified by substring. -/
def replicateClassify (m : String) : String :=
  if strContains m "401" || strContains (lowerStr m) "authentication" then
    "Replicate API token is invalid. Check your token."
  else if strContains m "402" || strContains (lowerStr m) "payment"
      || strContains (lowerStr m) "credit" then
    "No credit in your Replicate account. Check your billing settings."
  else if strContains m "429" || strContains (lowerStr m) "rate limit" then
    "Too many requests. Wait a few minutes and try again."
  else if strContains m "500" || strContains m "503" then
    "Replicate servers are busy. Please try again in a few minutes."
  else "Replicate API error: " ++ strTrunc m 150

/-- The handler applied to an escaped exception. -/
def replicateHandle (e : PyExc) : String := replicateClassify (PyExc.msg e)

/-- The body of the Replicate `try` block (lines 53-121); the image is
sent as a base64 data URI. -/
def replicateBody (env : RepEnv) (imageBytes : Bytes) (prompt : String)
    (strength : ℚ) : Except PyExc TransformOutcome :=
  match env.run (replicateInputParams
      ("data:image/png;base64," ++ env.b64e imageBytes) prompt strength) with
  | .error e => .error e
  | .ok out => replicateNormalize env out

/-- `transform_image` of `replicate_api_handler.py`; `negative_prompt` is
accepted but unused (documented no-op). -/
def replicate_transform_image (env : RepEnv) (imageBytes : Bytes) (prompt : String)
    (strength : ℚ) (negative_prompt : String) : TransformOutcome :=
  match env.token with
  | none => .failure "Replicate API token not found. Add REPLICATE_API_TOKEN to .env file."
  | some _ => runExcept replicateHandle (replicateBody env imageBytes prompt strength)

/-- Claim C9: when the downloaded and decoded bytes agree, all three
backend output shapes — URL string, direct image, and a list holding
either — normalize to the identical successful outcome. -/
theorem replicate_output_normalization (env : RepEnv) (u : String) (b : Bytes) (i : Img)
    (hdl : env.download u = .ok b) (hdec : env.decode b = .ok i) :
    replicateNormalize env (.url u) = .ok (.success i) ∧
    replicateNormalize env (.image i) = .ok (.success i) ∧
    replicateNormalize env (.list [RepElem.url u]) = .ok (.success i) ∧
    replicateNormalize env (.list [RepElem.image i]) = .ok (.success i) := by
  refine ⟨?_, rfl, ?_, rfl⟩ <;> simp [replicateNormalize, hdl, hdec]

/-- Witness for C9 at a concrete environment: URL "u" downloads to bytes
[7] which decode to image [5]. -/
theorem replicate_output_normalization_witness :
    replicateNormalize
        ⟨some "tok", fun _ => "AA", fun _ => .ok (.image [5]),
          fun u => if u = "u" then .ok [7] else .error (.generic "E" "x"),
          fun b => if b = [7] then .ok [5] else .error (.generic "E" "x")⟩
        (.url "u") = .ok (.success [5]) ∧
    replicateNormalize
        ⟨some "tok", fun _ => "AA", fun _ => .ok (.image [5]),
          fun u => if u = "u" then .ok [7] else .error (.generic "E" "x"),
          fun b => if b = [7] then .ok [5] else .error (.generic "E" "x")⟩
        (.image [5]) = .ok (.success [5]) ∧
    replicateNormalize
        ⟨some "tok", fun _ => "AA", fun _ => .ok (.image [5]),
          fun u => if u = "u" then .ok [7] else .error (.generic "E" "x"),
          fun b => if b = [7] then .ok [5] else .error (.generic "E" "x")⟩
        (.list [RepElem.url "u"]) = .ok (.success [5]) ∧
    replicateNormalize
        ⟨some "tok", fun _ => "AA", fun _ => .ok (.image [5]),
          fun u => if u = "u" then .ok [7] else .error (.generic "E" "x"),
          fun b => if b = [7] then .ok [5] else .error (.generic "E" "x")⟩
        (.list [RepElem.image [5]]) = .ok (.success [5]) :=
  replicate_output_normalization
    ⟨some "tok", fun _ => "AA", fun _ => .ok (.image [5]),
      fun u => if u = "u" then .ok [7] else .error (.generic "E" "x"),
      fun b => if b = [7] then .ok [5] else .error (.generic "E" "x")⟩
    "u" [7] [5] (by decide) (by decide)

/-! ## Stability AI adapter (`src/utils/stability_ai_handler.py`) -/

/-- One artifact of a 200 response (lines 218-231). -/
structure StabArtifact where
  finishReason : Option String
  base64Data : Option String

/-- The observed response of the Stability POST: status, the extracted
error message for non-200 statuses, and the parsed artifact list for 200
(`none` when the `artifacts` key is absent; parsing may raise). -/
structure StabResp where
  status : Nat
  errMessage : String
  artifacts : Except PyExc (Option (List StabArtifact))

/-- The external world as seen by the Stability adapter. -/
structure StabEnv where
  /-- `STABILITY_API_KEY` from the environment -/
  apiKey : Option String
  /-- `Image.open(io.BytesIO(image_bytes))` followed by the pure
  `resize_for_sdxl` remap and PNG re-encoding -/
  decodeInit : Bytes → Except PyExc Img
  /-- `requests.post` with the multipart form data -/
  post : StabilityRequestData → Except PyExc StabResp
  /-- `base64.b64decode` plus `Image.open` of an artifact payload -/
  b64decode : String → Except PyExc Img

/-- The `except` clauses of the Stability adapter (lines 244-253). -/
def stabilityHandle : PyExc → String
  | .timeout m => "Stability AI connection error: " ++ strTrunc m 150
  | .requestExc m => "Stability AI connection error: " ++ strTrunc m 150
  | .runtimeError m => "Stability AI API error: " ++ strTrunc m 150
  | .generic _ m => "Stability AI API error: " ++ strTrunc m 150

/-- The body of the Stability `try` block (lines 98-242). -/
def stabilityBody (env : StabEnv) (imageBytes : Bytes) (prompt : String)
    (strength : ℚ) (negative_prompt : String) : Except PyExc TransformOutcome :=
  match env.decodeInit imageBytes with
  | .error e => .error e
  | .ok _ =>
    match env.post (stabilityRequestData prompt negative_prompt strength) with
    | .error e => .error e
    | .ok resp =>
      if resp.status ≠ 200 then
        if resp.status = 401 then
          .ok (.failure "Stability AI API key is invalid. Check your key.")
        else if resp.status = 402 then
          .ok (.failure "No credit in your Stability AI account. Check your billing settings.")
        else if resp.status = 403 then
          .ok (.failure ("You don" ++ sq ++
            "t have permission for this operation. Check your subscription plan."))
        else if resp.status = 404 then
          .ok (.failure "Engine not found: stable-diffusion-xl-1024-v1-0")
        else if resp.status = 429 then
          .ok (.failure "Rate limit exceeded. Wait a few seconds and try again.")
        else
          .ok (.failure ("Stability AI API error: " ++ resp.errMessage))
      else
        match resp.artifacts with
        | .error e => .error e
        | .ok none => .ok (.failure "No image returned from API.")
        | .ok (some []) => .ok (.failure "No image returned from API.")
        | .ok (some (a :: _)) =>
          if a.finishReason = some "CONTENT_FILTERED" then
            .ok (.failure "Caught by content filter. Please change your prompt.")
          else
            match a.base64Data with
            | none => .ok (.failure "Could not get base64 image from API.")
            | some b64 =>
              match env.b64decode b64 with
              | .error e => .error e
              | .ok img => .ok (.success img)

/-- `transform_image` of `stability_ai_handler.py`. -/
def stability_transform_image (env : StabEnv) (imageBytes : Bytes) (prompt : String)
    (strength : ℚ) (negative_prompt : String) : TransformOutcome :=
  match env.apiKey with
  | none => .failure "Stability AI API key not found. Add STABILITY_API_KEY to .env file."
  | some _ =>
    runExcept stabilityHandle (stabilityBody env imageBytes prompt strength negative_prompt)

/-! ## Hugging Face adapter (`src/utils/hf_api_handler.py`) -/

/-- The result of one `client.image_to_image` attempt (lines 95-148):
an exception (caught, next model), a direct PIL image (returned), a
readable object (`Image.open` of it, which may itself raise — also
caught), or some other shape (the loop silently moves on). -/
inductive HFCallRes where
  | raised (e : PyExc)
  | isImage (i : Img)
  | readable (r : Except PyExc Img)
  | otherShape

/-- An HTTP response of the direct-call method (status and raw content). -/
structure HFHttpResp where
  status : Nat
  content : Bytes

/-- The JSON payload of a direct call (lines 178-187 and the alternative
shape of lines 226-233 — both carry the same four fields). -/
structure HFPayload where
  imageB64 : String
  prompt : String
  strength : ℚ
  guidance_scale : ℚ
deriving DecidableEq

/-- The external world as seen by the Hugging Face adapter. -/
structure HFEnv where
  /-- `HF_API_TOKEN` from settings -/
  token : Option String
  /-- `InferenceClient(...)` construction: `some e` when it raised, which
  skips the whole managed-client method -/
  clientRaised : Option PyExc
  /-- the managed-client attempt for model index 0, 1, 2, given the prompt
  text passed to it -/
  call : Nat → String → HFCallRes
  /-- the direct POST for model index 0, 1, given the payload -/
  post1 : Nat → HFPayload → Except PyExc HFHttpResp
  /-- the alternative-payload retry POST on a 422 -/
  post2 : Nat → HFPayload → Except PyExc HFHttpResp
  /-- `base64.b64encode(image_bytes).decode(utf-8)` -/
  b64e : Bytes → String
  /-- `Image.open(io.BytesIO(content))` -/
  decode : Bytes → Except PyExc Img

/-- The instruction-style prompt (lines 68-75): after the default
substitution, prompts lacking an instruction verb get the
"transform this image:" framing. -/
def hfInstructPrompt (prompt : String) : String :=
  let p := if prompt = "" then "improve image quality, add details, enhance colors" else prompt
  if strContains (lowerStr p) "turn" || strContains (lowerStr p) "make"
      || strContains (lowerStr p) "change" || strContains (lowerStr p) "convert"
      || strContains (lowerStr p) "transform" then p
  else "transform this image: " ++ p

/-- Method 1 (lines 84-151): try the managed client on each model in
order; only a returned image stops the loop, every failure shape moves on
to the next model.  Model index 0 is the instruct model and receives the
instruction-style prompt. -/
def hfMethod1 (env : HFEnv) (ip p : String) : List Nat → Option Img
  | [] => none
  | i :: rest =>
    match env.call i (if i = 0 then ip else p) with
    | .isImage img => some img
    | .readable (.ok img) => some img
    | _ => hfMethod1 env ip p rest

/-- Method 2 (lines 170-259): direct HTTP per model; 200 decodes and
returns, 422 retries once with the alternative payload shape, and every
other status, timeout or exception moves on to the next model. -/
def hfMethod2 (env : HFEnv) (payload : HFPayload) : List Nat → Option Img
  | [] => none
  | i :: rest =>
    match env.post1 i payload with
    | .error _ => hfMethod2 env payload rest
    | .ok resp =>
      if resp.status = 200 then
        match env.decode resp.content with
        | .ok img => some img
        | .error _ => hfMethod2 env payload rest
      else if resp.status = 422 then
        match env.post2 i payload with
        | .error _ => hfMethod2 env payload rest
        | .ok r2 =>
          if r2.status = 200 then
            match env.decode r2.content with
            | .ok img => some img
            | .error _ => hfMethod2 env payload rest
          else hfMethod2 env payload rest
      else hfMethod2 env payload rest

/-- The aggregated failure text (lines 266-277, after `.strip()`). -/
def hfAggregateMsg : String :=
  "No suitable model found in Hugging Face free API.\n\nPossible solutions:\n1. Wait a few minutes and try again (models might be loading)\n2. Try a different platform (DeepAI, Stability AI, Replicate)\n3. Upgrade to Hugging Face Pro account\n\nNote: Image-to-image support is limited in Hugging Face free tier."

/-- `transform_image` of `hf_api_handler.py`.  There is no whole-body
`try`: every exception is caught inside the two method loops. -/
def hf_transform_image (env : HFEnv) (imageBytes : Bytes) (prompt : String)
    (strength : ℚ) (negative_prompt : String) : TransformOutcome :=
  match env.token with
  | none => .failure "API token not found. Check your .env file."
  | some _ =>
    match (if env.clientRaised.isSome then none
        else hfMethod1 env (hfInstructPrompt prompt)
          (if prompt = "" then "improve image quality, add details, enhance colors"
           else prompt) [0, 1, 2]) with
    | some img => .success img
    | none =>
      match hfMethod2 env
          ⟨env.b64e imageBytes, hfInstructPrompt prompt, strength, mkRat 15 2⟩ [0, 1] with
      | some img => .success img
      | none => .failure hfAggregateMsg

/-! ## Claim C1: the uniform adapter contract -/

/-- Appending to a non-empty string keeps it non-empty. -/
lemma append_len_pos (a b : String) (h : 0 < a.length) : 0 < (a ++ b).length := by
  rw [String.length_append]; omega

/-- Contract for a `try`-block body: if it completes without an escaped
exception, its outcome is well-formed. -/
def excWFb : Except PyExc TransformOutcome → Bool
  | .ok o => o.wellFormed
  | .error _ => true

/-- Every DeepAI `except` clause produces a non-empty message. -/
lemma deepaiHandle_len (e : PyExc) : 0 < (deepaiHandle e).length := by
  cases e <;> simp only [deepaiHandle] <;>
    first | decide | exact append_len_pos _ _ (by decide)

/-- Every Leonardo `except` clause produces a non-empty message. -/
lemma leoHandle_len (e : PyExc) : 0 < (leoHandle e).length := by
  cases e <;> simp only [leoHandle] <;> exact append_len_pos _ _ (by decide)

/-- Every local-adapter `except` clause produces a non-empty message. -/
lemma localHandle_len (e : PyExc) : 0 < (localHandle e).length := by
  cases e <;> simp only [localHandle] <;>
    first
      | exact append_len_pos _ _ (by decide)
      | (split
         · decide
         · exact append_len_pos _ _ (by decide))

/-- Every Replicate `except` classification produces a non-empty message. -/
lemma replicateClassify_len (m : String) : 0 < (replicateClassify m).length := by
  unfold replicateClassify
  repeat' split
  all_goals first | decide | exact append_len_pos _ _ (by decide)

/-- The Replicate handler always produces a non-empty message. -/
lemma replicateHandle_len (e : PyExc) : 0 < (replicateHandle e).length :=
  replicateClassify_len (PyExc.msg e)

/-- Every Stability `except` clause produces a non-empty message. -/
lemma stabilityHandle_len (e : PyExc) : 0 < (stabilityHandle e).length := by
  cases e <;> simp only [stabilityHandle] <;> exact append_len_pos _ _ (by decide)

/-- Wrapping a well-formed body with an `except` handler that always
produces non-empty messages yields a well-formed outcome. -/
lemma runExcept_wf (handle : PyExc → String) (b : Except PyExc TransformOutcome)
    (hb : excWFb b = true) (hh : ∀ e, 0 < (handle e).length) :
    (runExcept handle b).wellFormed = true := by
  cases b with
  | ok o => exact hb
  | error e => simpa [runExcept, TransformOutcome.wellFormed] using hh e

/-- The DeepAI body only completes with well-formed outcomes. -/
lemma deepaiBody_wf (env : DeepAIEnv) (imageBytes : Bytes) (prompt : String)
    (strength : ℚ) : excWFb (deepaiBody env imageBytes prompt strength) = true := by
  unfold deepaiBody
  generalize env.post ⟨deepaiFinalPrompt prompt strength, imageBytes⟩ = r
  match r with
  | .error e => rfl
  | .ok resp =>
    repeat' split
    all_goals first
      | (simp only [excWFb, TransformOutcome.wellFormed, decide_eq_true_eq]
         first
           | exact append_len_pos _ _ (by decide)
           | exact append_len_pos _ _ (append_len_pos _ _ (append_len_pos _ _ (by decide))))
      | rfl

/-- `transform_image` of the DeepAI adapter satisfies the contract. -/
lemma deepai_wf (env : DeepAIEnv) (imageBytes : Bytes) (prompt : String)
    (strength : ℚ) (negative_prompt : String) :
    (deepai_transform_image env imageBytes prompt strength negative_prompt).wellFormed
      = true := by
  unfold deepai_transform_image
  split
  · decide
  · exact runExcept_wf _ _ (deepaiBody_wf env imageBytes prompt strength) deepaiHandle_len

/-- The COMPLETE branch of the Leonardo poller only completes with
well-formed outcomes. -/
lemma leoOnComplete_wf (env : LeoEnv) : excWFb (leoOnComplete env) = true := by
  unfold leoOnComplete
  repeat' split
  all_goals first | rfl | decide

/-- The polling loop preserves the contract of its COMPLETE branch. -/
lemma leoPollAux_wf (read : Nat → LeoRead) (oc : Except PyExc TransformOutcome)
    (hoc : excWFb oc = true) :
    ∀ (rem i : Nat), excWFb (leoPollAux read oc i rem).res = true := by
  intro rem
  induction rem with
  | zero => intro i; rfl
  | succ rem ih =>
    intro i
    unfold leoPollAux
    match read i with
    | .raised e => rfl
    | .httpErr => exact ih (i + 1)
    | .st s =>
      by_cases h1 : s = "COMPLETE"
      · simpa [h1] using hoc
      · by_cases h2 : s = "FAILED"
        · subst h2
          rfl
        · simpa [h1, h2] using ih (i + 1)

/-- The Leonardo body only completes with well-formed outcomes. -/
lemma leoBody_wf (env : LeoEnv) (imageBytes : Bytes) (prompt : String)
    (strength : ℚ) (negative_prompt : String) :
    excWFb (leoBody env imageBytes prompt strength negative_prompt) = true := by
  unfold leoBody
  repeat' split
  all_goals first
    | rfl
    | decide
    | exact leoPollAux_wf env.read (leoOnComplete env) (leoOnComplete_wf env) 60 0
    | (simp only [excWFb, TransformOutcome.wellFormed, decide_eq_true_eq]
       exact append_len_pos _ _ (by decide))

/-- `transform_image` of the Leonardo adapter satisfies the contract. -/
lemma leonardo_wf (env : LeoEnv) (imageBytes : Bytes) (prompt : String)
    (strength : ℚ) (negative_prompt : String) :
    (leonardo_transform_image env imageBytes prompt strength negative_prompt).wellFormed
      = true := by
  unfold leonardo_transform_image
  split
  · decide
  · exact runExcept_wf _ _ (leoBody_wf env imageBytes prompt strength negative_prompt)
      leoHandle_len

/-- `transform_image` of the local adapter satisfies the contract. -/
lemma local_wf (env : LocalEnv) (imageBytes : Bytes) (prompt : String)
    (strength : ℚ) (negative_prompt : String) :
    (local_transform_image env imageBytes prompt strength negative_prompt).1.wellFormed
      = true := by
  unfold local_transform_image
  split
  · rfl
  · simpa [TransformOutcome.wellFormed] using localHandle_len _

/-- The Replicate normalization only completes with well-formed outcomes. -/
lemma replicateNormalize_wf (env : RepEnv) (out : RepOut) :
    excWFb (replicateNormalize env out) = true := by
  unfold replicateNormalize
  repeat' split
  all_goals first
    | rfl
    | decide
    | (simp only [excWFb, TransformOutcome.wellFormed, decide_eq_true_eq]
       exact append_len_pos _ _ (by decide))

/-- The Replicate body only completes with well-formed outcomes. -/
lemma replicateBody_wf (env : RepEnv) (imageBytes : Bytes) (prompt : String)
    (strength : ℚ) : excWFb (replicateBody env imageBytes prompt strength) = true := by
  unfold replicateBody
  split
  · rfl
  · exact replicateNormalize_wf env _

/-- `transform_image` of the Replicate adapter satisfies the contract. -/
lemma replicate_wf (env : RepEnv) (imageBytes : Bytes) (prompt : String)
    (strength : ℚ) (negative_prompt : String) :
    (replicate_transform_image env imageBytes prompt strength negative_prompt).wellFormed
      = true := by
  unfold replicate_transform_image
  split
  · decide
  · exact runExcept_wf _ _ (replicateBody_wf env imageBytes prompt strength)
      replicateHandle_len

/-- The Stability body only completes with well-formed outcomes. -/
lemma stabilityBody_wf (env : StabEnv) (imageBytes : Bytes) (prompt : String)
    (strength : ℚ) (negative_prompt : String) :
    excWFb (stabilityBody env imageBytes prompt strength negative_prompt) = true := by
  unfold stabilityBody
  repeat' split
  all_goals first
    | rfl
    | decide
    | (simp only [excWFb, TransformOutcome.wellFormed, decide_eq_true_eq]
       exact append_len_pos _ _ (by decide))

/-- `transform_image` of the Stability adapter satisfies the contract. -/
lemma stability_wf (env : StabEnv) (imageBytes : Bytes) (prompt : String)
    (strength : ℚ) (negative_prompt : String) :
    (stability_transform_image env imageBytes prompt strength negative_prompt).wellFormed
      = true := by
  unfold stability_transform_image
  split
  · decide
  · exact runExcept_wf _ _
      (stabilityBody_wf env imageBytes prompt strength negative_prompt) stabilityHandle_len

/-- `transform_image` of the Hugging Face adapter satisfies the contract. -/
lemma hf_wf (env : HFEnv) (imageBytes : Bytes) (prompt : String)
    (strength : ℚ) (negative_prompt : String) :
    (hf_transform_image env imageBytes prompt strength negative_prompt).wellFormed
      = true := by
  unfold hf_transform_image
  repeat' split
  all_goals rfl

/-- Claim C1: for every adapter among the six and every environment
behaviour, with strength in [0.3, 0.9], `transform_image` returns a value
of the two-variant outcome type (so the outcomes are mutually exclusive
by construction and, the embedding being a total function, no exception
escapes the adapter boundary), and whenever it is the failure variant the
message is non-empty; the success variant always carries the decoded
image produced by the environment. -/
theorem adapter_contract (envLocal : LocalEnv) (envDeepai : DeepAIEnv)
    (envHf : HFEnv) (envLeo : LeoEnv) (envRep : RepEnv) (envStab : StabEnv)
    (imageBytes : Bytes) (prompt negative_prompt : String) (strength : ℚ)
    (hs : mkRat 3 10 ≤ strength ∧ strength ≤ mkRat 9 10) :
    (local_transform_image envLocal imageBytes prompt strength
        negative_prompt).1.wellFormed = true ∧
    (deepai_transform_image envDeepai imageBytes prompt strength
        negative_prompt).wellFormed = true ∧
    (hf_transform_image envHf imageBytes prompt strength
        negative_prompt).wellFormed = true ∧
    (leonardo_transform_image envLeo imageBytes prompt strength
        negative_prompt).wellFormed = true ∧
    (replicate_transform_image envRep imageBytes prompt strength
        negative_prompt).wellFormed = true ∧
    (stability_transform_image envStab imageBytes prompt strength
        negative_prompt).wellFormed = true :=
  ⟨local_wf _ _ _ _ _, deepai_wf _ _ _ _ _, hf_wf _ _ _ _ _,
   leonardo_wf _ _ _ _ _, replicate_wf _ _ _ _ _, stability_wf _ _ _ _ _⟩

/-- Witness for C1: concrete environments (a successful local run and
five keyless cloud adapters) at strength 3/5. -/
theorem adapter_contract_witness :
    (local_transform_image ⟨true, .ok (), fun _ => .ok [2], fun _ _ _ => .ok [3]⟩
        [1] "p" (mkRat 3 5) "").1.wellFormed = true ∧
    (deepai_transform_image ⟨none, fun _ => .ok ⟨200, "", .ok none⟩,
        fun _ => .ok (200, [1]), fun _ => .ok [1]⟩
        [1] "p" (mkRat 3 5) "").wellFormed = true ∧
    (hf_transform_image ⟨none, none, fun _ _ => .otherShape,
        fun _ _ => .error (.timeout "t"), fun _ _ => .error (.timeout "t"),
        fun _ => "AA", fun _ => .ok [1]⟩
        [1] "p" (mkRat 3 5) "").wellFormed = true ∧
    (leonardo_transform_image ⟨none, fun _ => .error (.timeout "t"),
        fun _ => .error (.timeout "t"), fun _ => .httpErr, [],
        fun _ => .error (.timeout "t"), fun _ => .ok [1]⟩
        [1] "p" (mkRat 3 5) "").wellFormed = true ∧
    (replicate_transform_image ⟨none, fun _ => "AA", fun _ => .ok (.other "x"),
        fun _ => .ok [1], fun _ => .ok [1]⟩
        [1] "p" (mkRat 3 5) "").wellFormed = true ∧
    (stability_transform_image ⟨none, fun _ => .ok [1], fun _ => .error (.timeout "t"),
        fun _ => .ok [1]⟩
        [1] "p" (mkRat 3 5) "").wellFormed = true :=
  adapter_contract ⟨true, .ok (), fun _ => .ok [2], fun _ _ _ => .ok [3]⟩
    ⟨none, fun _ => .ok ⟨200, "", .ok none⟩, fun _ => .ok (200, [1]), fun _ => .ok [1]⟩
    ⟨none, none, fun _ _ => .otherShape, fun _ _ => .error (.timeout "t"),
      fun _ _ => .error (.timeout "t"), fun _ => "AA", fun _ => .ok [1]⟩
    ⟨none, fun _ => .error (.timeout "t"), fun _ => .error (.timeout "t"),
      fun _ => .httpErr, [], fun _ => .error (.timeout "t"), fun _ => .ok [1]⟩
    ⟨none, fun _ => "AA", fun _ => .ok (.other "x"), fun _ => .ok [1], fun _ => .ok [1]⟩
    ⟨none, fun _ => .ok [1], fun _ => .error (.timeout "t"), fun _ => .ok [1]⟩
    [1] "p" "" (mkRat 3 5) (by decide)

end AIVar
